import Mathlib

/-!
Shallow embedding of the t_pg marshaling layer (src/t_pg.h): the
parameter list, SQL command building and validation, the exec call,
and the result cursor with its type-directed decoders.

Conventions of the embedding: a QByteArray is a list of byte values;
a QString is a list of characters; libpq's PGresult cell storage is a
grid of optional byte strings (none = SQL NULL); the uint32 cursor
indices live in Nat with an explicit reduction modulo 2^32 where the
source increments them; diagnostic output (qWarning / qDebug) is
returned explicitly as a list of emitted messages or log events.
-/

/-- A QByteArray: a finite sequence of bytes. -/
abbrev ByteArr := List Nat

/-- Model of QString::toLocal8Bit, the connection's single-byte locale
encoding: one byte per character, abstracted as the character code. -/
def toLocal8Bit (s : List Char) : ByteArr := s.map Char.toNat

/-- SqlParameterList: ordered payloads (params_) and the parallel
format tags (formats_, 0 = text, 1 = binary). -/
structure SqlParameterList where
  params : List ByteArr
  formats : List Nat
deriving DecidableEq, Repr

/-- The default-constructed, empty parameter list. -/
def SqlParameterList.empty : SqlParameterList := ⟨[], []⟩

/-- size(): the number of stored payloads. -/
def SqlParameterList.size (l : SqlParameterList) : Nat := l.params.length

/-- SqlParameterList::operator+= appends the right operand's payloads
and formats after the left operand's. -/
def SqlParameterList.plusAssign (l p : SqlParameterList) : SqlParameterList :=
  ⟨l.params ++ p.params, l.formats ++ p.formats⟩

instance : Add SqlParameterList := ⟨fun a b => a.plusAssign b⟩

/-- struct ParamFormat: one (payload, format tag) pair. -/
structure ParamFormat where
  param : ByteArr
  format : Nat
deriving DecidableEq, Repr

/-- paramWithFormat(): pair each payload with its format tag; on a
length mismatch between the two vectors a warning is emitted and the
empty list is returned. -/
def SqlParameterList.paramWithFormat (l : SqlParameterList) : List ParamFormat :=
  if l.params.length ≠ l.formats.length then []
  else (l.params.zip l.formats).map fun pf => ⟨pf.1, pf.2⟩

/-- The argument surface types of SqlParameterList::arg whose
emptiness the validation policy inspects: a binary blob (QByteArray),
a C string (a null pointer, or the bytes before the terminator), and
a QString.  The QDateTime, std::string, arithmetic and QVariant
overloads all reduce to these paths in the source. -/
inductive SqlArg where
  | bytes (data : ByteArr)
  | cstr (data : Option ByteArr)
  | qstring (data : List Char)
deriving DecidableEq, Repr

/-- The diagnostic text validateData emits for an empty argument. -/
def emptyDataDiag : String := "error - Invalid SQL argument. Empty data"

/-- isEmpty(const char*): a null pointer or a first byte of 0. -/
def cstrIsEmpty : Option ByteArr → Bool
  | none => true
  | some d => d.isEmpty

/-- validateData: accept iff the data is nonempty; an empty argument
is reported.  Returns (accepted, emitted diagnostics). -/
def validateData (empty : Bool) : Bool × List String :=
  if empty then (false, [emptyDataDiag]) else (true, [])

/-- SqlParameterList::arg, by overload, with the diagnostics it
emits: binary blobs append with format 1; C strings and QStrings
append their (locale-encoded) bytes with format 0; an argument that
fails validateData leaves the list unchanged. -/
def SqlParameterList.argCore (l : SqlParameterList) : SqlArg → SqlParameterList × List String
  | .bytes data =>
    let v := validateData data.isEmpty
    (if v.1 then ⟨l.params ++ [data], l.formats ++ [1]⟩ else l, v.2)
  | .cstr data =>
    let v := validateData (cstrIsEmpty data)
    (if v.1 then ⟨l.params ++ [data.getD []], l.formats ++ [0]⟩ else l, v.2)
  | .qstring data =>
    let v := validateData data.isEmpty
    (if v.1 then ⟨l.params ++ [toLocal8Bit data], l.formats ++ [0]⟩ else l, v.2)

/-- arg's effect on the stored list (the diagnostics go to the log). -/
def SqlParameterList.arg (l : SqlParameterList) (a : SqlArg) : SqlParameterList :=
  (l.argCore a).1

/-- The cases the validation policy drops: an empty byte array, a
null or empty C string, an empty string. -/
def SqlArg.isEmptyArg : SqlArg → Bool
  | .bytes d => d.isEmpty
  | .cstr d => cstrIsEmpty d
  | .qstring s => s.isEmpty

/-- The format tag an accepted argument receives: binary (1) for byte
arrays, text (0) for string-like arguments. -/
def SqlArg.tagOf : SqlArg → Nat
  | .bytes _ => 1
  | _ => 0

/-- The payload an accepted argument contributes. -/
def SqlArg.payloadOf : SqlArg → ByteArr
  | .bytes d => d
  | .cstr d => d.getD []
  | .qstring s => toLocal8Bit s

/-- Sql: a textual command template plus its parameter list. -/
structure Sql where
  command : ByteArr
  params : SqlParameterList
deriving DecidableEq, Repr

/-- Sql::arg delegates to the parameter list's arg. -/
def Sql.arg (s : Sql) (a : SqlArg) : Sql := ⟨s.command, s.params.arg a⟩

/-- Sql::operator+=(const Sql&): append the other command's template
text and its parameter list. -/
def Sql.plusAssign (s t : Sql) : Sql :=
  ⟨s.command ++ t.command, s.params + t.params⟩

instance : Add Sql := ⟨fun a b => a.plusAssign b⟩

/-- static const char at Sql scope: the placeholder marker '$'
(ASCII 36; the source spells it paramPre-fix). -/
def paramMarker : Nat := 36

/-- parseParamsCount(): the occurrence count of the marker character
in the template.  QByteArray::count returns a nonnegative int, which
the uint32 return converts exactly. -/
def Sql.parseParamsCount (s : Sql) : Nat := s.command.count paramMarker

/-- Sql::valid(): template nonempty, count < INT_MAX, count equals
both vector lengths, and the uint32 cast of count equals
parseParamsCount(). -/
def Sql.valid (s : Sql) : Bool :=
  let count := s.params.size
  !s.command.isEmpty &&
  decide (count < 2147483647) &&
  (count == s.params.params.length) &&
  (count == s.params.formats.length) &&
  ((count % 2^32) == s.parseParamsCount)

/-- QByteArray::number for a nonnegative integer: decimal digits. -/
def numberBytes (n : Nat) : ByteArr := (Nat.toDigits 10 n).map Char.toNat

/-- QByteArray::replace(before, after) with the nonempty pattern
`p0 :: ptail`: replace each left-to-right occurrence, continuing the
scan after the inserted replacement (the replacement itself is not
rescanned). -/
def replaceOcc (p0 : Nat) (ptail rep : ByteArr) : ByteArr → ByteArr
  | [] => []
  | c :: rest =>
    if c = p0 ∧ ptail.isPrefixOf rest then
      rep ++ replaceOcc p0 ptail rep (rest.drop ptail.length)
    else
      c :: replaceOcc p0 ptail rep rest
termination_by s => s.length
decreasing_by
  all_goals simp [List.length_drop]
  omega

/-- One step of the Sql::debug loop: a text-format parameter is
substituted into its numbered placeholder; the running placeholder
number advances either way. -/
def debugStep (acc : ByteArr × Nat) (pf : ParamFormat) : ByteArr × Nat :=
  (if pf.format = 0 then
     replaceOcc paramMarker (numberBytes acc.2) pf.param acc.1
   else acc.1,
   acc.2 + 1)

/-- The byte string Sql::debug() renders: starting from the template,
each text-format parameter replaces its placeholder, numbering from
1. -/
def Sql.debugRender (s : Sql) : ByteArr :=
  (s.params.paramWithFormat.foldl debugStep (s.command, 1)).1

/-- The cell grid behind a PGresult handle: rows of columns, with
none modelling a SQL NULL cell. -/
structure PGresultData where
  rows : List (List (Option ByteArr))
deriving DecidableEq, Repr

/-- Cell lookup; libpq treats out-of-range indices as null/empty. -/
def pqGetCell (res : PGresultData) (row col : Nat) : Option ByteArr :=
  match res.rows.get? row with
  | none => none
  | some r =>
    match r.get? col with
    | none => none
    | some c => c

/-- PQgetisnull. -/
def pqGetIsNull (res : PGresultData) (row col : Nat) : Bool :=
  (pqGetCell res row col).isNone

/-- PQgetvalue (an absent or null cell reads as the empty string). -/
def pqGetValue (res : PGresultData) (row col : Nat) : ByteArr :=
  (pqGetCell res row col).getD []

/-- PQgetlength. -/
def pqGetLength (res : PGresultData) (row col : Nat) : Nat :=
  (pqGetValue res row col).length

/-- qFromBigEndian over a byte sequence: most significant byte
first. -/
def fromBigEndianNat (bs : ByteArr) : Nat :=
  bs.foldl (fun a b => a * 256 + b) 0

/-- value<T> for a fixed-width numeric T of byte width w, on the
unsigned representation of T: decode big-endian iff the cell is
non-null and its raw length equals w, else T's zero value. -/
def valueFixed (w : Nat) (res : PGresultData) (row col : Nat) : Nat :=
  if pqGetIsNull res row col = false ∧ pqGetLength res row col = w then
    fromBigEndianNat (pqGetValue res row col)
  else 0

/-- Two's-complement reading of a 64-bit unsigned value: composing
this with valueFixed 8 gives value<int64_t>. -/
def toSigned64 (n : Nat) : Int :=
  if n < 2^63 then (n : Int) else (n : Int) - 2^64

/-- value<int64_t>. -/
def valueInt64 (res : PGresultData) (row col : Nat) : Int :=
  toSigned64 (valueFixed 8 res row col)

/-- value<QDateTime>: QDateTime(QDate(2000,1,1), QTime(0,0,0))
.addMSecs(value<int64_t>(res,row,col) / 1000).  The QDateTime is
represented by its signed count of milliseconds from that epoch;
C++ int64 division truncates toward zero (Int.tdiv). -/
def valueQDateTime (res : PGresultData) (row col : Nat) : Int :=
  Int.tdiv (valueInt64 res row col) 1000

/-- Big-endian encoding of v into exactly w bytes: the network byte
order encoding the decoder consumes. -/
def natToBytesBE : Nat → Nat → ByteArr
  | 0, _ => []
  | w + 1, v => natToBytesBE w (v / 256) ++ [v % 256]

/-- A one-row, one-column result grid holding one non-null cell. -/
def mkSingleCell (bs : ByteArr) : PGresultData := ⟨[[some bs]]⟩

/-- The binary timestamp encoding: the signed 64-bit count of
microseconds since 2000-01-01T00:00:00, two's complement,
big-endian. -/
def encodeTimestampMicros (d : Int) : ByteArr :=
  natToBytesBE 8 (d % 2 ^ 64).toNat

/-- PgResult: ownership of the handle's cell data (none for an
invalid result) plus the cached row and column counts. -/
structure PgResult where
  res : Option PGresultData
  nRows : Nat
  nCols : Nat
deriving DecidableEq, Repr

/-- rowCount(). -/
def PgResult.rowCount (r : PgResult) : Nat := r.nRows

/-- columnCount(). -/
def PgResult.columnCount (r : PgResult) : Nat := r.nCols

/-- size() == rowCount(). -/
def PgResult.size (r : PgResult) : Nat := r.rowCount

/-- PgRowColumn: a back pointer to the result (none models a null
pointer) plus the row and column indices. -/
structure PgRowColumn where
  result : Option PgResult
  row : Nat
  column : Nat
deriving DecidableEq, Repr

/-- PgRowColumn::next(): ++row_ (a uint32 increment). -/
def PgRowColumn.next (c : PgRowColumn) : PgRowColumn :=
  ⟨c.result, (c.row + 1) % 2^32, c.column⟩

/-- PgRowColumn::operator==: compares only the column index. -/
def PgRowColumn.eq (a b : PgRowColumn) : Bool := a.column == b.column

/-- PgRow: a back pointer to the result plus the row index. -/
structure PgRow where
  result : Option PgResult
  row : Nat
deriving DecidableEq, Repr

/-- The default-constructed PgRow: unbound, row 0. -/
def PgRow.empty : PgRow := ⟨none, 0⟩

/-- PgRow::size(): the owning result's column count, or 0 when
unbound. -/
def PgRow.size : PgRow → Nat
  | ⟨some r, _⟩ => r.columnCount
  | ⟨none, _⟩ => 0

/-- PgRow::at(column): a column view of this row. -/
def PgRow.atColumn (r : PgRow) (column : Nat) : PgRowColumn :=
  ⟨r.result, r.row, column⟩

/-- PgRow::begin(): the column view at column 0. -/
def PgRow.cbegin (r : PgRow) : PgRowColumn := r.atColumn 0

/-- PgRow::end(): the column view at column size(). -/
def PgRow.cend (r : PgRow) : PgRowColumn := r.atColumn r.size

/-- PgRow::next(): ++row_ (a uint32 increment). -/
def PgRow.next (r : PgRow) : PgRow := ⟨r.result, (r.row + 1) % 2^32⟩

/-- PgRow::operator==: compares only the row index. -/
def PgRow.eq (a b : PgRow) : Bool := a.row == b.row

/-- PgResult::at(index): bounds-checked row access; out of range
yields the default-constructed PgRow. -/
def PgResult.atIndex (r : PgResult) (index : Nat) : PgRow :=
  if index < r.size then ⟨some r, index⟩ else PgRow.empty

/-- PgResult::row(index) delegates to at(index). -/
def PgResult.row (r : PgResult) (index : Nat) : PgRow := r.atIndex index

/-- PgResult::operator[]: no bounds check at all. -/
def PgResult.subscript (r : PgResult) (index : Nat) : PgRow :=
  ⟨some r, index⟩

/-- PgResult::begin(): the row at index 0. -/
def PgResult.cbegin (r : PgResult) : PgRow := ⟨some r, 0⟩

/-- PgResult::end(): the row at index size(). -/
def PgResult.cend (r : PgResult) : PgRow := ⟨some r, r.size⟩

/-- PgRowColumn::to<T>(): decode via T's value<> specialization (the
dec argument, fed the handle result_->get()) when the view is bound
and the column index is in range, else T's default value. -/
def PgRowColumn.to {α : Type} [Inhabited α]
    (dec : Option PGresultData → Nat → Nat → α) (c : PgRowColumn) : α :=
  match c.result with
  | some r => if c.column < r.columnCount then dec r.res c.row c.column else default
  | none => default

/-- The payload of the PQexecParams call built by exec: command text,
parameter count, payload bytes, lengths and format tags (none models
the null pointers passed when there are no parameters), and the
binary result-format flag. -/
structure WireCall where
  command : ByteArr
  nParams : Nat
  values : Option (List ByteArr)
  lengths : Option (List Nat)
  formats : Option (List Nat)
  resultFormat : Nat
deriving DecidableEq, Repr

/-- The protocol's view of a returned result handle. -/
structure PGresultRaw where
  status : Nat
  errorMessage : String
deriving DecidableEq, Repr

/-- ExecStatusType's PGRES_COMMAND_OK. -/
def PGRES_COMMAND_OK : Nat := 1

/-- ExecStatusType's PGRES_TUPLES_OK. -/
def PGRES_TUPLES_OK : Nat := 2

/-- exec's isFailStatus lambda. -/
def isFailStatus (status : Nat) : Bool :=
  status != PGRES_COMMAND_OK && status != PGRES_TUPLES_OK

/-- The diagnostic side effects of exec, in emission order. -/
inductive ExecEvent where
  | warning (msg : String)
  | debugLog (rendered : ByteArr)
  | wireSubmit (call : WireCall)
deriving DecidableEq, Repr

/-- Whether an event is the wire submission (the protocol
round-trip). -/
def ExecEvent.isWire : ExecEvent → Bool
  | .wireSubmit _ => true
  | _ => false

/-- Whether an event is the qDebug rendering of the command. -/
def ExecEvent.isDebug : ExecEvent → Bool
  | .debugLog _ => true
  | _ => false

/-- What exec returns and emits: the handle (none for nullptr), the
error out-parameter, and the ordered event log. -/
structure ExecResult where
  handle : Option PGresultRaw
  error : Option String
  log : List ExecEvent
deriving DecidableEq, Repr

/-- The PQexecParams argument list exec assembles from the Sql. -/
def Sql.wireCall (sql : Sql) : WireCall :=
  { command := sql.command,
    nParams := sql.params.size,
    values := if 0 < sql.params.size then some sql.params.params else none,
    lengths := if 0 < sql.params.size then some (sql.params.params.map List.length) else none,
    formats := if 0 < sql.params.size then some sql.params.formats else none,
    resultFormat := 1 }

/-- exec(conn, sql, error): the validity gate, the qDebug rendering,
the PQexecParams submission (modelled by the wire function standing
for the connection), and the status checks, with errorReport's
qWarning messages recorded in the log. -/
def exec (wire : WireCall → Option PGresultRaw) (sql : Sql) : ExecResult :=
  if sql.valid = false then
    { handle := none, error := some "Sql - Too many parameters",
      log := [.warning "Sql - Too many parameters"] }
  else
    match wire sql.wireCall with
    | none =>
      { handle := none, error := some "PGresult - invalid result handle",
        log := [.debugLog sql.debugRender, .wireSubmit sql.wireCall,
                .warning "PGresult - invalid result handle"] }
    | some r =>
      if isFailStatus r.status then
        { handle := none, error := some ("PGresult - " ++ r.errorMessage),
          log := [.debugLog sql.debugRender, .wireSubmit sql.wireCall,
                  .warning ("PGresult - " ++ r.errorMessage)] }
      else
        { handle := some r, error := none,
          log := [.debugLog sql.debugRender, .wireSubmit sql.wireCall] }

/-- Concrete template "$1 $2" (two marker characters). -/
def twoMarkerTemplate : ByteArr := [36, 49, 32, 36, 50]

/-- Sql("$1 $2").arg("a").arg(""): the second, empty argument is
dropped by the validation policy. -/
def sqlDroppedArg : Sql :=
  ((Sql.mk twoMarkerTemplate .empty).arg (.qstring ['a'])).arg (.qstring [])

/-- Sql("$1 $2").arg("a").arg(QByteArray{7}): two accepted
arguments against two placeholders. -/
def sqlTwoAccepted : Sql :=
  ((Sql.mk twoMarkerTemplate .empty).arg (.qstring ['a'])).arg (.bytes [7])

/-- An invalid command: empty template. -/
def sqlInvalidEmpty : Sql := Sql.mk [] .empty

/-- An invalid command for the logging counterexample: template "$1"
with no parameters attached. -/
def sqlInvalidLog : Sql := Sql.mk [36, 49] .empty

/-- A trivially valid command: the one-byte template "x", no
placeholders, no parameters. -/
def sqlValidNoParams : Sql := Sql.mk [120] .empty

/-- A wire that yields no result handle; the claims settled on it do
not depend on the wire's answer. -/
def wireNone : WireCall → Option PGresultRaw := fun _ => none

/-- A 1-row, 1-column result whose one cell holds the byte '1': the
failing input for the column-cursor claim. -/
def resultC1 : PgResult := ⟨some (mkSingleCell [49]), 1, 1⟩

/-- The first row of resultC1. -/
def rowC1 : PgRow := ⟨some resultC1, 0⟩

/-- A column view bound to a 1-column result but with column index 5:
out of range. -/
def colOutOfRange : PgRowColumn := ⟨some ⟨some (mkSingleCell [49]), 1, 1⟩, 0, 5⟩

/-- A 1-row, 1-column result for exercising subscript/at out of
range. -/
def resultC10 : PgResult := ⟨some (mkSingleCell [50]), 1, 1⟩

/-- A one-entry parameter list with a text payload. -/
def plLeft : SqlParameterList := ⟨[[97]], [0]⟩

/-- A one-entry parameter list with a binary payload. -/
def plRight : SqlParameterList := ⟨[[7]], [1]⟩

/-- Sql("$1").arg("a"). -/
def sqlLeft : Sql := (Sql.mk [36, 49] .empty).arg (.qstring ['a'])

/-- Sql("$1").arg(QByteArray{7}). -/
def sqlRight : Sql := (Sql.mk [36, 49] .empty).arg (.bytes [7])

-- Helper lemmas on the big-endian encoder/decoder pair.

theorem natToBytesBE_length (w : Nat) : ∀ v, (natToBytesBE w v).length = w := by
  induction w with
  | zero => intro v; rfl
  | succ w ih =>
    intro v
    simp [natToBytesBE, ih]

theorem fromBigEndianNat_snoc (xs : ByteArr) (b : Nat) :
    fromBigEndianNat (xs ++ [b]) = fromBigEndianNat xs * 256 + b := by
  simp [fromBigEndianNat, List.foldl_append]

theorem fromBigEndianNat_natToBytesBE (w : Nat) :
    ∀ v, fromBigEndianNat (natToBytesBE w v) = v % 256 ^ w := by
  induction w with
  | zero => intro v; simp [natToBytesBE, fromBigEndianNat, Nat.mod_one]
  | succ w ih =>
    intro v
    rw [natToBytesBE, fromBigEndianNat_snoc, ih]
    have h : 256 ^ (w + 1) = 256 * 256 ^ w := by ring
    rw [h, Nat.mod_mul]
    ring

theorem valueFixed_mkSingleCell (w : Nat) (bs : ByteArr) (h : bs.length = w) :
    valueFixed w (mkSingleCell bs) 0 0 = fromBigEndianNat bs := by
  simp [valueFixed, pqGetIsNull, pqGetLength, pqGetValue, pqGetCell, mkSingleCell, h]

theorem valueFixed_encode (w v : Nat) (h : v < 256 ^ w) :
    valueFixed w (mkSingleCell (natToBytesBE w v)) 0 0 = v := by
  rw [valueFixed_mkSingleCell w _ (natToBytesBE_length w v),
    fromBigEndianNat_natToBytesBE]
  exact Nat.mod_eq_of_lt h

theorem toSigned64_emod (d : Int) (h1 : -(2 ^ 63) ≤ d) (h2 : d < 2 ^ 63) :
    toSigned64 (d % 2 ^ 64).toNat = d := by
  have hp63i : (2 : Int) ^ 63 = 9223372036854775808 := by norm_num
  have hp64i : (2 : Int) ^ 64 = 18446744073709551616 := by norm_num
  have hp63n : (2 : Nat) ^ 63 = 9223372036854775808 := by norm_num
  unfold toSigned64
  rw [hp63i] at h1 h2
  rw [hp64i, hp63n]
  split <;> omega

/-- Claim C5: for every fixed-width numeric type (byte width w), the
decoder returns the big-endian reinterpretation of the raw bytes when
the cell is non-null with raw length exactly w, returns the zero
value when the cell is null or of any other length, and round-trips
the w-byte big-endian encoding of every representable value v. -/
theorem c5_fixed_width_decode :
    (∀ (w : Nat) (res : PGresultData) (row col : Nat) (bs : ByteArr),
      pqGetCell res row col = some bs → bs.length = w →
      valueFixed w res row col = fromBigEndianNat bs) ∧
    (∀ (w : Nat) (res : PGresultData) (row col : Nat),
      pqGetIsNull res row col = true ∨ pqGetLength res row col ≠ w →
      valueFixed w res row col = 0) ∧
    (∀ w v : Nat, v < 256 ^ w →
      valueFixed w (mkSingleCell (natToBytesBE w v)) 0 0 = v) := by
  refine ⟨?_, ?_, ?_⟩
  · intro w res row col bs hcell hlen
    simp [valueFixed, pqGetIsNull, pqGetLength, pqGetValue, hcell, hlen]
  · intro w res row col h
    unfold valueFixed
    rcases h with h | h
    · rw [if_neg]
      simp [h]
    · rw [if_neg]
      intro hc
      exact h hc.2
  · intro w v h
    exact valueFixed_encode w v h

/-- Claim C5 witness: decoding the 4-byte big-endian encoding of
0x12345678 yields it back. -/
theorem c5_witness :
    305419896 < 256 ^ 4 ∧
    valueFixed 4 (mkSingleCell (natToBytesBE 4 305419896)) 0 0 = 305419896 :=
  ⟨by norm_num, c5_fixed_width_decode.2.2 4 305419896 (by norm_num)⟩

/-- Claim C6: encoding a date-time instant d (given as signed
microseconds since 2000-01-01T00:00:00, within int64 range) to the
8-byte big-endian two's-complement wire form and decoding it with
value<QDateTime> yields the instant truncated to millisecond
precision (its millisecond count, C++ truncation toward zero). -/
theorem c6_datetime_roundtrip :
    ∀ d : Int, -(2 ^ 63) ≤ d → d < 2 ^ 63 →
      valueQDateTime (mkSingleCell (encodeTimestampMicros d)) 0 0 =
        Int.tdiv d 1000 := by
  intro d h1 h2
  have hb : (d % 2 ^ 64).toNat < 256 ^ 8 := by
    have hmlt : d % 2 ^ 64 < 2 ^ 64 := Int.emod_lt_of_pos d (by norm_num)
    have h64 : (256 : Nat) ^ 8 = 2 ^ 64 := by norm_num
    rw [h64]
    omega
  have hval : valueFixed 8 (mkSingleCell (encodeTimestampMicros d)) 0 0 =
      (d % 2 ^ 64).toNat := by
    unfold encodeTimestampMicros
    exact valueFixed_encode 8 _ hb
  unfold valueQDateTime valueInt64
  rw [hval, toSigned64_emod d h1 h2]

/-- Claim C6 witness: 1234567 microseconds after the epoch decodes to
its truncated millisecond count. -/
theorem c6_witness :
    -(2 ^ 63) ≤ (1234567 : Int) ∧ (1234567 : Int) < 2 ^ 63 ∧
    valueQDateTime (mkSingleCell (encodeTimestampMicros 1234567)) 0 0 =
      Int.tdiv 1234567 1000 :=
  ⟨by norm_num, by norm_num,
    c6_datetime_roundtrip 1234567 (by norm_num) (by norm_num)⟩

/-- Claim C2: Sql::valid() is true iff the template is nonempty, the
parameter count fits the protocol's positional-parameter range
(< INT_MAX), it equals the payload count, equals the format-tag
count, and equals parseParamsCount(), the textual occurrence count of
the marker character; and the two-placeholder command whose second,
empty argument was dropped is invalid. -/
theorem c2_valid_iff :
    (∀ s : Sql, s.valid = true ↔
      (s.command ≠ [] ∧ s.params.size < 2147483647 ∧
       s.params.size = s.params.params.length ∧
       s.params.size = s.params.formats.length ∧
       s.params.size = s.parseParamsCount)) ∧
    sqlDroppedArg.valid = false := by
  constructor
  · intro s
    unfold Sql.valid
    simp only [Bool.and_eq_true, beq_iff_eq, decide_eq_true_eq,
      Bool.not_eq_eq_eq_not, Bool.not_true, List.isEmpty_eq_false]
    constructor
    · rintro ⟨⟨⟨⟨h1, h2⟩, h3⟩, h4⟩, h5⟩
      have hm : s.params.size % 2 ^ 32 = s.params.size :=
        Nat.mod_eq_of_lt (by omega)
      exact ⟨h1, h2, h3, h4, by omega⟩
    · rintro ⟨h1, h2, h3, h4, h5⟩
      have hm : s.params.size % 2 ^ 32 = s.params.size :=
        Nat.mod_eq_of_lt (by omega)
      exact ⟨⟨⟨⟨h1, h2⟩, h3⟩, h4⟩, by omega⟩
  · rfl

/-- Claim C2 witness: the same template with both arguments accepted
is valid. -/
theorem c2_witness : sqlTwoAccepted.valid = true :=
  (c2_valid_iff.1 sqlTwoAccepted).2
    ⟨by decide, by decide, by decide, by decide, by decide⟩

/-- Claim C3: an empty argument (empty string, null or empty C
string, empty byte array) only emits the diagnostic and leaves the
list unchanged; any other argument appends exactly one
(payload, format tag) pair — tag 1 for byte arrays, 0 for string-like
arguments — and emits nothing.  (arg never fails: it is a total
function.) -/
theorem c3_arg_policy :
    ∀ (l : SqlParameterList) (a : SqlArg),
      (a.isEmptyArg = true →
        (l.argCore a).1 = l ∧ (l.argCore a).2 = [emptyDataDiag]) ∧
      (a.isEmptyArg = false →
        (l.argCore a).1.params = l.params ++ [a.payloadOf] ∧
        (l.argCore a).1.formats = l.formats ++ [a.tagOf] ∧
        (l.argCore a).1.size = l.size + 1 ∧
        (l.argCore a).2 = []) := by
  intro l a
  cases a with
  | bytes d =>
    cases hd : d.isEmpty <;>
      simp [SqlParameterList.argCore, validateData, SqlArg.isEmptyArg,
        SqlArg.tagOf, SqlArg.payloadOf, SqlParameterList.size, hd]
  | cstr d =>
    cases hd : cstrIsEmpty d <;>
      simp [SqlParameterList.argCore, validateData, SqlArg.isEmptyArg,
        SqlArg.tagOf, SqlArg.payloadOf, SqlParameterList.size, hd]
  | qstring d =>
    cases hd : d.isEmpty <;>
      simp [SqlParameterList.argCore, validateData, SqlArg.isEmptyArg,
        SqlArg.tagOf, SqlArg.payloadOf, SqlParameterList.size, hd]

/-- Claim C3 witness: a one-byte blob is appended with format 1; an
empty string is dropped with the diagnostic. -/
theorem c3_witness :
    ((SqlParameterList.empty.argCore (.bytes [7])).1.params =
        SqlParameterList.empty.params ++ [SqlArg.payloadOf (.bytes [7])] ∧
      (SqlParameterList.empty.argCore (.bytes [7])).1.formats =
        SqlParameterList.empty.formats ++ [SqlArg.tagOf (.bytes [7])] ∧
      (SqlParameterList.empty.argCore (.bytes [7])).1.size =
        SqlParameterList.empty.size + 1 ∧
      (SqlParameterList.empty.argCore (.bytes [7])).2 = []) ∧
    ((SqlParameterList.empty.argCore (.qstring [])).1 = SqlParameterList.empty ∧
      (SqlParameterList.empty.argCore (.qstring [])).2 = [emptyDataDiag]) :=
  ⟨(c3_arg_policy SqlParameterList.empty (.bytes [7])).2 (by decide),
   (c3_arg_policy SqlParameterList.empty (.qstring [])).1 (by decide)⟩

/-- Claim C4: for every wire (connection) and every invalid command,
exec returns a null handle together with the "too many parameters"
error, and the wire submission never happens. -/
theorem c4_fail_fast :
    ∀ (wire : WireCall → Option PGresultRaw) (sql : Sql),
      sql.valid = false →
      (exec wire sql).handle = none ∧
      (exec wire sql).error = some "Sql - Too many parameters" ∧
      (exec wire sql).log.any ExecEvent.isWire = false := by
  intro wire sql h
  simp [exec, h, ExecEvent.isWire]

/-- Claim C4 witness: an empty-template command is rejected without a
wire call. -/
theorem c4_witness :
    sqlInvalidEmpty.valid = false ∧
    (exec wireNone sqlInvalidEmpty).handle = none ∧
    (exec wireNone sqlInvalidEmpty).error = some "Sql - Too many parameters" ∧
    (exec wireNone sqlInvalidEmpty).log.any ExecEvent.isWire = false :=
  ⟨rfl, c4_fail_fast wireNone sqlInvalidEmpty rfl⟩

/-- Claim C8 counterexample: exec on an invalid command emits no
debug rendering at all — the claim's "including when the Command is
invalid" fails on the code, which returns before Sql::debug(). -/
theorem c8_counterexample :
    (exec wireNone sqlInvalidLog).log.any ExecEvent.isDebug = false ∧
    (exec wireNone sqlInvalidLog).error = some "Sql - Too many parameters" :=
  ⟨rfl, rfl⟩

/-- Claim C8 (amended): for every exec call whose command is valid,
the rendered debug form is logged, immediately before the wire
submission, regardless of the submission's outcome; an invalid
command is rejected without the debug log. -/
theorem c8_debug_logged_when_valid :
    ∀ (wire : WireCall → Option PGresultRaw) (sql : Sql),
      sql.valid = true →
      ∃ (call : WireCall) (rest : List ExecEvent),
        (exec wire sql).log =
          ExecEvent.debugLog sql.debugRender :: ExecEvent.wireSubmit call :: rest := by
  intro wire sql h
  unfold exec
  rw [if_neg (by simp [h])]
  cases wire sql.wireCall with
  | none => exact ⟨sql.wireCall, _, rfl⟩
  | some r =>
    dsimp only
    split
    · exact ⟨sql.wireCall, _, rfl⟩
    · exact ⟨sql.wireCall, _, rfl⟩

/-- Claim C8 witness: a valid no-parameter command logs its rendering
before the wire call. -/
theorem c8_witness :
    sqlValidNoParams.valid = true ∧
    ∃ (call : WireCall) (rest : List ExecEvent),
      (exec wireNone sqlValidNoParams).log =
        ExecEvent.debugLog sqlValidNoParams.debugRender ::
          ExecEvent.wireSubmit call :: rest :=
  ⟨rfl, c8_debug_logged_when_valid wireNone sqlValidNoParams rfl⟩

/-- Claim C7: whenever a column view is unbound (null result pointer)
or its column index is at or past the result's column count, to<T>()
returns T's default value — for every target type and decoder. -/
theorem c7_to_default :
    ∀ (α : Type) [Inhabited α]
      (dec : Option PGresultData → Nat → Nat → α) (c : PgRowColumn),
      (c.result = none ∨ ∃ r, c.result = some r ∧ r.columnCount ≤ c.column) →
      c.to dec = default := by
  intro α inst dec c h
  rcases h with h | ⟨r, hr, hcol⟩
  · simp [PgRowColumn.to, h]
  · simp [PgRowColumn.to, hr, Nat.not_lt.mpr hcol]

/-- Claim C7 witness: column index 5 against a 1-column result
decodes to Nat's zero even though the decoder would return 7. -/
theorem c7_witness : colOutOfRange.to (fun _ _ _ => (7 : Nat)) = 0 :=
  c7_to_default Nat (fun _ _ _ => (7 : Nat)) colOutOfRange
    (Or.inr ⟨⟨some (mkSingleCell [49]), 1, 1⟩, rfl, by decide⟩)

/-- Claim C9: parameter-list concatenation appends the right
operand's payloads and format tags after the left operand's, with the
(payload, tag) pairs in order and unrenumbered; Sql concatenation
appends the templates and concatenates the parameter lists, so the
parameter count adds. -/
theorem c9_concat :
    ∀ (a b : SqlParameterList) (A B : Sql),
      ((a + b).params = a.params ++ b.params ∧
       (a + b).formats = a.formats ++ b.formats) ∧
      (a.params.length = a.formats.length →
        b.params.length = b.formats.length →
        (a + b).paramWithFormat = a.paramWithFormat ++ b.paramWithFormat) ∧
      ((A + B).command = A.command ++ B.command ∧
       (A + B).params = A.params + B.params ∧
       (A + B).params.size = A.params.size + B.params.size) := by
  intro a b A B
  refine ⟨⟨rfl, rfl⟩, ?_, rfl, rfl, ?_⟩
  · intro ha hb
    have h1 : (a + b) = SqlParameterList.mk (a.params ++ b.params)
        (a.formats ++ b.formats) := rfl
    rw [h1]
    unfold SqlParameterList.paramWithFormat
    rw [if_neg (by simp [ha, hb]), if_neg (by simp [ha]), if_neg (by simp [hb])]
    rw [List.zip_append ha, List.map_append]
  · show (A.params.params ++ B.params.params).length =
      A.params.params.length + B.params.params.length
    exact List.length_append _ _

/-- Claim C9 witness: a one-text-entry list concatenated with a
one-binary-entry list, and the corresponding commands. -/
theorem c9_witness :
    ((plLeft + plRight).params = plLeft.params ++ plRight.params ∧
     (plLeft + plRight).formats = plLeft.formats ++ plRight.formats) ∧
    (plLeft + plRight).paramWithFormat =
      plLeft.paramWithFormat ++ plRight.paramWithFormat ∧
    ((sqlLeft + sqlRight).command = sqlLeft.command ++ sqlRight.command ∧
     (sqlLeft + sqlRight).params = sqlLeft.params + sqlRight.params ∧
     (sqlLeft + sqlRight).params.size =
       sqlLeft.params.size + sqlRight.params.size) :=
  ⟨(c9_concat plLeft plRight sqlLeft sqlRight).1,
   (c9_concat plLeft plRight sqlLeft sqlRight).2.1 rfl rfl,
   (c9_concat plLeft plRight sqlLeft sqlRight).2.2⟩

/-- Claim C10: operator[] performs no bounds check — for every index
it returns a row bound to the result at that index, whose size() is
the result's column count — whereas at()/row() return the
default-constructed empty row once the index reaches rowCount(). -/
theorem c10_subscript_unchecked :
    ∀ (r : PgResult) (i : Nat),
      (r.subscript i = ⟨some r, i⟩ ∧ (r.subscript i).size = r.columnCount) ∧
      (r.rowCount ≤ i → r.atIndex i = PgRow.empty ∧ r.row i = PgRow.empty) := by
  intro r i
  refine ⟨⟨rfl, rfl⟩, ?_⟩
  intro h
  have hn : ¬ i < r.size := by
    simp only [PgResult.size, PgResult.rowCount] at h ⊢
    omega
  constructor
  · simp [PgResult.atIndex, hn]
  · simp [PgResult.row, PgResult.atIndex, hn]

/-- Claim C10 witness: index 3 against a 1-row result. -/
theorem c10_witness :
    (resultC10.subscript 3 = ⟨some resultC10, 3⟩ ∧
     (resultC10.subscript 3).size = resultC10.columnCount) ∧
    (resultC10.atIndex 3 = PgRow.empty ∧ resultC10.row 3 = PgRow.empty) :=
  ⟨(c10_subscript_unchecked resultC10 3).1,
   (c10_subscript_unchecked resultC10 3).2 (by decide)⟩

/-- Claim C1, evaluated at the failing input: PgRowColumn::next()
increments the row index while operator== compares column indices,
so on a 1-column row one increment from begin() leaves the column at
0 and does not compare equal to end() — the column cursor never
reaches end().  (Row iteration over rows, by contrast, does reach
Result's end() after rowCount increments, as the last conjunct
shows.) -/
theorem c1_column_cursor_bug :
    rowC1.size = 1 ∧
    PgRowColumn.eq rowC1.cbegin.next rowC1.cend = false ∧
    rowC1.cbegin.next.column = 0 ∧
    rowC1.cbegin.next.row = 1 ∧
    PgRow.eq resultC1.cbegin.next resultC1.cend = true :=
  ⟨rfl, rfl, rfl, rfl, rfl⟩
